import Mathlib

/-!
Shallow embedding of the flowers shop bot (src/flowers.py): the relational
store, the cart / checkout / order handlers, the admin catalog operations,
the phone validator and the terms-PDF layout routine, together with theorems
checking the specification's claims about them.

Conventions used throughout:
* SQL tables are lists of rows in insertion order; AUTOINCREMENT ids are
  carried as explicit next-id counters on the store.
* SQL REAL prices are modelled exactly (as integers); timestamps and the
  unused paid flag are omitted.
* An unordered `SELECT ... LIMIT 1` / `fetchone` is modelled as the first
  matching row in list order.
* `int(text)` on a message is modelled by its result, an `Option Int`
  (`none` models the ValueError branch); the regex `\d` is modelled as a
  decimal digit.
* Handlers that catch an exception and answer an apology without touching
  the store are modelled as the identity on the store.
-/

/-- Rows of the cities table (id INTEGER PRIMARY KEY AUTOINCREMENT, name TEXT UNIQUE). -/
structure City where
  id : Nat
  name : String
deriving DecidableEq

/-- Rows of the products table (id, city_id, name, description, price, photo). -/
structure Product where
  id : Nat
  cityId : Nat
  name : String
  description : String
  price : Int
  photo : String
deriving DecidableEq

/-- Rows of the cart table (id, user_id, product_id, quantity); added_at omitted. -/
structure CartLine where
  id : Nat
  userId : Nat
  productId : Nat
  quantity : Nat
deriving DecidableEq

/-- Rows of the orders table (id, user_id, product_id, phone, area, comment, status);
paid and created_at omitted (unused by every handler). -/
structure OrderRow where
  id : Nat
  userId : Nat
  productId : Nat
  phone : String
  area : String
  comment : String
  status : String
deriving DecidableEq

/-- The relational store created by init_db: cities, products, cart, orders and
terms_content, plus the AUTOINCREMENT counters of the three tables the
handlers insert into. -/
structure DB where
  cities : List City
  products : List Product
  cart : List CartLine
  orders : List OrderRow
  terms : List String
  nextCityId : Nat
  nextCartId : Nat
  nextOrderId : Nat
deriving DecidableEq

/-- The per-user session waypoint (aiogram FSM state); `idle` models a cleared state. -/
inductive Waypoint
  | idle
  | waiting_for_quantity
  | waiting_for_phone
  | waiting_for_area
  | waiting_for_comment
deriving DecidableEq

/-- `SELECT ... FROM products WHERE id=?` followed by fetchone. -/
def findProduct (db : DB) (pid : Nat) : Option Product :=
  db.products.find? (fun p => p.id == pid)

/-- `SELECT ... FROM cities WHERE id=?` followed by fetchone. -/
def findCity (db : DB) (cid : Nat) : Option City :=
  db.cities.find? (fun c => c.id == cid)

/-- valid_phone: `re.fullmatch(r'(\+380\d{9}|0\d{9})', phone)` on the char list. -/
def digits9 (l : List Char) : Bool :=
  l.length == 9 && l.all Char.isDigit

/-- The regex alternation, matched against the full character list. -/
def phone_match : List Char → Bool
  | '+' :: '3' :: '8' :: '0' :: rest => digits9 rest
  | '0' :: rest => digits9 rest
  | _ => false

/-- valid_phone from src/flowers.py line 154. -/
def valid_phone (s : String) : Bool :=
  phone_match s.data

/-- order_phone (the waiting_for_phone message handler), applied to the already
stripped text `message.text.strip()`: re-prompts in place on an invalid phone,
advances to waiting_for_area on a valid one. -/
def order_phone (phone : String) : Waypoint :=
  if valid_phone phone then Waypoint.waiting_for_area else Waypoint.waiting_for_phone

/-- get_user_cart_city: the joined DISTINCT city of the user's cart, LIMIT 1.
Cart lines whose product or city row is missing are dropped by the inner JOINs;
LIMIT 1 on the unordered result is modelled as the first resolvable line. -/
def get_user_cart_city (db : DB) (uid : Nat) : Option (Nat × String) :=
  (db.cart.filterMap (fun cl =>
    if cl.userId == uid then
      match findProduct db cl.productId with
      | some p =>
        match findCity db p.cityId with
        | some c => some (c.id, c.name)
        | none => none
      | none => none
    else none)).head?

/-- The city name of a product via the products-cities JOIN in add_to_cart. -/
def product_city_name (db : DB) (pid : Nat) : Option String :=
  match findProduct db pid with
  | some p => (findCity db p.cityId).map (fun c => c.name)
  | none => none

/-- add_to_cart (the add_to_cart: callback): the city-conflict check. Returns the
(product id, product name) payload stored into the session when the handler
proceeds to the quantity prompt; `none` models every abort path (city conflict,
or a lookup failure caught by the except block). -/
def add_to_cart (db : DB) (uid pid : Nat) : Option (Nat × String) :=
  match get_user_cart_city db uid with
  | some (_, cname) =>
    match product_city_name db pid with
    | some pcname =>
      if cname == pcname then (findProduct db pid).map (fun p => (p.id, p.name))
      else none
    | none => none
  | none => (findProduct db pid).map (fun p => (p.id, p.name))

/-- The insert-or-merge over the cart table in add_to_cart_with_quantity:
an existing (user, product) line has its quantity incremented (UPDATE by cart id,
no cap), otherwise a fresh line is inserted. -/
def cart_insert_or_merge (db : DB) (uid pid q : Nat) : DB :=
  match db.cart.find? (fun cl => cl.userId == uid && cl.productId == pid) with
  | some cl =>
    { db with cart := db.cart.map (fun c =>
        if c.id == cl.id then { c with quantity := c.quantity + q } else c) }
  | none =>
    { db with cart := db.cart ++ [⟨db.nextCartId, uid, pid, q⟩],
              nextCartId := db.nextCartId + 1 }

/-- add_to_cart_with_quantity (the waiting_for_quantity message handler).
`input` is the result of `int(message.text.strip())` (`none` = ValueError).
Returns the store and the waypoint after the handler: invalid input re-prompts
and keeps waiting_for_quantity; valid input mutates the cart and clears the state. -/
def add_to_cart_with_quantity (db : DB) (uid pid : Nat) (input : Option Int) :
    DB × Waypoint :=
  match input with
  | none => (db, Waypoint.waiting_for_quantity)
  | some q =>
    if q < 1 || q > 10 then (db, Waypoint.waiting_for_quantity)
    else (cart_insert_or_merge db uid pid q.toNat, Waypoint.idle)

/-- One whole AddToCart interaction: the add_to_cart conflict check followed, when
it proceeds, by the quantity step. -/
def AddToCart (db : DB) (uid pid : Nat) (input : Option Int) : DB :=
  match add_to_cart db uid pid with
  | none => db
  | some _ => (add_to_cart_with_quantity db uid pid input).1

/-- A sequence of AddToCart interactions for one user. -/
def applyAdds (db : DB) (uid : Nat) (ops : List (Nat × Option Int)) : DB :=
  ops.foldl (fun d op => AddToCart d uid op.1 op.2) db

/-- The set of distinct cities referenced by a user's cart lines
(city of each line's product, deduplicated). -/
def cartCityIds (db : DB) (uid : Nat) : List Nat :=
  ((db.cart.filter (fun cl => cl.userId == uid)).filterMap
    (fun cl => (findProduct db cl.productId).map (fun p => p.cityId))).dedup

/-- Schema well-formedness guaranteed by init_db and the admin flows: city ids and
city names are unique (PRIMARY KEY, UNIQUE), and every product's city exists. -/
abbrev WF (db : DB) : Prop :=
  (db.cities.map City.id).Nodup ∧ (db.cities.map City.name).Nodup ∧
  ∀ p ∈ db.products, ∃ c ∈ db.cities, c.id = p.cityId

/-- The inductive invariant for the single-city property: every cart line of the
user resolves to a product, and any two such lines resolve to the same city. -/
abbrev CartInv (db : DB) (uid : Nat) : Prop :=
  (∀ cl ∈ db.cart, cl.userId = uid → (findProduct db cl.productId).isSome) ∧
  (∀ cl1 ∈ db.cart, ∀ cl2 ∈ db.cart, cl1.userId = uid → cl2.userId = uid →
    (findProduct db cl1.productId).map (fun p => p.cityId)
      = (findProduct db cl2.productId).map (fun p => p.cityId))

/-- `UPDATE orders SET status=? WHERE id=?`. -/
def set_order_status (db : DB) (oid : Nat) (st : String) : DB :=
  { db with orders := db.orders.map (fun o =>
      if o.id == oid then { o with status := st } else o) }

/-- order_accept callback followed by send_accept_feedback: the callback checks
the order row exists (replying "not found" otherwise); the feedback handler then
sets status='accepted' unconditionally. -/
def acceptOrder (db : DB) (oid : Nat) : DB :=
  if (db.orders.find? (fun o => o.id == oid)).isSome
  then set_order_status db oid "accepted" else db

/-- order_reject callback followed by send_reject_feedback: same shape, status='rejected'. -/
def rejectOrder (db : DB) (oid : Nat) : DB :=
  if (db.orders.find? (fun o => o.id == oid)).isSome
  then set_order_status db oid "rejected" else db

/-- The status column of the order row with the given id. -/
def statusOf (db : DB) (oid : Nat) : Option String :=
  (db.orders.find? (fun o => o.id == oid)).map OrderRow.status

/-- One entry of the cart_items snapshot stored into the session bag by
cart_checkout: (product_id, quantity, name, price, city_name). -/
structure CartItem where
  productId : Nat
  quantity : Nat
  name : String
  price : Int
  cityName : String
deriving DecidableEq

/-- cart_checkout's SELECT: the user's cart joined with products and cities;
lines with a missing product or city are dropped by the JOINs. -/
def cart_snapshot (db : DB) (uid : Nat) : List CartItem :=
  db.cart.filterMap (fun cl =>
    if cl.userId == uid then
      match findProduct db cl.productId with
      | some p =>
        match findCity db p.cityId with
        | some c => some ⟨cl.productId, cl.quantity, p.name, p.price, c.name⟩
        | none => none
      | none => none
    else none)

/-- One `INSERT INTO orders ... VALUES (?, ?, ?, ?, ?, 'pending')`. -/
def insertOrderRow (uid : Nat) (phone area comment : String) (pid : Nat) (db : DB) : DB :=
  { db with
      orders := db.orders ++ [⟨db.nextOrderId, uid, pid, phone, area, comment, "pending"⟩],
      nextOrderId := db.nextOrderId + 1 }

/-- The `for _ in range(quantity)` loop: one order row per unit of one snapshot item. -/
def insertItemOrders (uid : Nat) (phone area comment : String) (it : CartItem) (db : DB) : DB :=
  (List.range it.quantity).foldl
    (fun d _ => insertOrderRow uid phone area comment it.productId d) db

/-- `DELETE FROM cart WHERE user_id=?`. -/
def clear_cart (db : DB) (uid : Nat) : DB :=
  { db with cart := db.cart.filter (fun cl => !(cl.userId == uid)) }

/-- The store mutation of order_comment's is_cart_order branch: one order row per
unit per snapshot item, then the user's cart lines are all deleted. -/
def finalize_cart_order (db : DB) (uid : Nat) (snap : List CartItem)
    (phone area comment : String) : DB :=
  clear_cart
    (snap.foldl (fun d it => insertItemOrders uid phone area comment it d) db) uid

/-- order_comment's is_cart_order branch as a whole: the updated store and the
total it renders into the manager message, `sum(item[3] * item[1])` computed from
the session's cart_items snapshot (the current cart table is never re-queried). -/
def order_comment_cart (db : DB) (uid : Nat) (snap : List CartItem)
    (phone area comment : String) : DB × Int :=
  (finalize_cart_order db uid snap phone area comment,
   (snap.map (fun it => it.price * (it.quantity : Int))).sum)

/-- ADMIN_IDS from src/flowers.py line 25. -/
def ADMIN_IDS : List Nat := [6982991715, 7682254485]

/-- The /admin command handler: the only place the allow-list is consulted.
The Bool reports whether the admin keyboard was shown; the store is untouched
either way. -/
def admin_panel (senderId : Nat) (db : DB) : DB × Bool :=
  if senderId ∈ ADMIN_IDS then (db, true) else (db, false)

/-- add_city_finish: refuse a duplicate name, otherwise insert the city. -/
def add_city_finish (db : DB) (name : String) : DB :=
  if db.cities.any (fun c => c.name == name) then db
  else { db with cities := db.cities ++ [⟨db.nextCityId, name⟩],
                 nextCityId := db.nextCityId + 1 }

/-- delete_city (the delete_city: callback): deletes the city row and every
product row of that city; cart and orders are not touched. -/
def delete_city (db : DB) (cityId : Nat) : DB :=
  { db with cities := db.cities.filter (fun c => !(c.id == cityId)),
            products := db.products.filter (fun p => !(p.cityId == cityId)) }

/-- create_terms_finish: `DELETE FROM terms_content` then insert the new content. -/
def create_terms_finish (db : DB) (content : String) : DB :=
  { db with terms := [content] }

/-- The dispatcher route for the AddCity.waiting_for_name message: the filter
matches on FSM state and text only, the sender identity is not consulted. -/
def route_add_city_text (senderId : Nat) (db : DB) (name : String) : DB :=
  add_city_finish db name

/-- The dispatcher route for the delete_city: callback: data-prefix filter only,
no identity check. -/
def route_delete_city (senderId : Nat) (db : DB) (cityId : Nat) : DB :=
  delete_city db cityId

/-- The dispatcher route for order_accept: data-prefix filter only, no identity check. -/
def route_order_accept (senderId : Nat) (db : DB) (oid : Nat) : DB :=
  acceptOrder db oid

/-- The dispatcher route for order_reject: data-prefix filter only, no identity check. -/
def route_order_reject (senderId : Nat) (db : DB) (oid : Nat) : DB :=
  rejectOrder db oid

/-- The dispatcher route for the PDFTermsState.waiting_for_content message:
FSM-state filter only, no identity check. -/
def route_create_terms (senderId : Nat) (db : DB) (content : String) : DB :=
  create_terms_finish db content

/-- One drawString call of the PDF canvas: page index, x, y and the drawn text.
The fonts are fixed constants and the reportlab fallback re-encoding
(`encode('utf-8', errors='replace').decode('utf-8')`) is the identity on the
strings the model ranges over, so neither is represented. -/
structure PdfOp where
  page : Nat
  x : Nat
  y : Int
  text : String
deriving DecidableEq

/-- The canvas state create_terms_pdf threads through its loop. -/
structure PdfState where
  page : Nat
  y : Int
  ops : List PdfOp
deriving DecidableEq

/-- One iteration of the word-wrap loop over a long line's words. -/
def wrapStep (acc : PdfState × String) (w : String) : PdfState × String :=
  if (acc.2 ++ w).length < 70 then (acc.1, acc.2 ++ w ++ " ")
  else
    ({ acc.1 with
        ops := acc.1.ops ++ [⟨acc.1.page, 100, acc.1.y, acc.2.trim⟩],
        y := acc.1.y - 20 },
     w ++ " ")

/-- The body of the per-line loop of create_terms_pdf: page break when the
cursor passed the threshold, then either the word-wrap path (len > 70) or a
single drawString. -/
def renderLine (st0 : PdfState) (line : String) : PdfState :=
  let st := if st0.y < 50 then { st0 with page := st0.page + 1, y := 750 } else st0
  if line.length > 70 then
    let r := (line.splitOn " ").foldl wrapStep (st, "")
    if r.2 ≠ "" then
      { r.1 with ops := r.1.ops ++ [⟨r.1.page, 100, r.1.y, r.2.trim⟩], y := r.1.y - 20 }
    else r.1
  else
    { st with ops := st.ops ++ [⟨st.page, 100, st.y, line⟩], y := st.y - 20 }

/-- create_terms_pdf: the title, the creation-date line taken from
`datetime.now().strftime("%d.%m.%Y")` (passed here explicitly as `dateStr`),
then the content lines. The returned draw-op list is the abstract document the
byte output is generated from. -/
def create_terms_pdf (content dateStr : String) : List PdfOp :=
  ((content.splitOn "\n").foldl renderLine
    { page := 0, y := 680,
      ops := [⟨0, 100, 750, "УМОВИ ВИКОРИСТАННЯ МАГАЗИНУ"⟩,
              ⟨0, 100, 720, "Дата створення: " ++ dateStr⟩] }).ops

/-- An empty store right after init_db. -/
def emptyDB : DB :=
  { cities := [], products := [], cart := [], orders := [], terms := [],
    nextCityId := 1, nextCartId := 1, nextOrderId := 1 }

/-- Witness catalog: two cities, two products in Lviv. -/
def db1 : DB :=
  { emptyDB with
      cities := [⟨1, "Lviv"⟩, ⟨2, "Kyiv"⟩],
      products := [⟨1, 1, "Rose", "red", 100, "ph"⟩, ⟨2, 1, "Tulip", "tu", 50, "ph"⟩],
      nextCityId := 3 }

/-- Witness store with one pending order. -/
def db2 : DB :=
  { emptyDB with
      orders := [⟨1, 7, 1, "0501234567", "Center", "-", "pending"⟩],
      nextOrderId := 2 }

/-- Witness store: the db1 catalog plus a cart line of user 7, quantity 3 of product 1. -/
def db5 : DB :=
  { db1 with cart := [⟨1, 7, 1, 3⟩], nextCartId := 2 }

/-- A list with ≤ one distinct value has a dedup of length ≤ 1. -/
theorem dedup_length_le_one {l : List Nat} (h : ∀ a ∈ l, ∀ b ∈ l, a = b) :
    l.dedup.length ≤ 1 := by
  by_contra hc
  push_neg at hc
  match hd : l.dedup with
  | [] => rw [hd] at hc; simp at hc
  | [a] => rw [hd] at hc; simp at hc
  | a :: b :: t =>
    have hnd := List.nodup_dedup l
    rw [hd] at hnd
    have hab : a ≠ b := by
      have := List.nodup_cons.mp hnd
      exact fun he => this.1 (he ▸ List.mem_cons_self b t)
    have ha : a ∈ l := List.mem_dedup.mp (hd ▸ List.mem_cons_self a (b :: t))
    have hb : b ∈ l := List.mem_dedup.mp (hd ▸ List.mem_cons_of_mem a (List.mem_cons_self b t))
    exact hab (h a ha b hb)

/-- The regex match, characterised: +380 then nine digits, or 0 then nine digits. -/
theorem phone_match_iff (l : List Char) :
    phone_match l = true ↔
      ((∃ t, l = '+' :: '3' :: '8' :: '0' :: t ∧ t.length = 9 ∧ t.all Char.isDigit = true) ∨
       (∃ t, l = '0' :: t ∧ t.length = 9 ∧ t.all Char.isDigit = true)) := by
  constructor
  · intro h
    unfold phone_match at h
    split at h
    · exact Or.inl ⟨_, rfl, by simpa [digits9, Bool.and_eq_true] using h⟩
    · exact Or.inr ⟨_, rfl, by simpa [digits9, Bool.and_eq_true] using h⟩
    · simp at h
  · rintro (⟨t, rfl, h1, h2⟩ | ⟨t, rfl, h1, h2⟩) <;>
      simp [phone_match, digits9, h1, h2]

/-- C8: the phone validator accepts exactly strings of shape 0 plus nine digits or
+380 plus nine digits; it accepts "0501234567" and "+380501234567", rejects
"050123456" and "380501234567", and a rejected phone leaves the checkout
waypoint at waiting_for_phone. -/
theorem valid_phone_spec :
    (∀ s : String, valid_phone s = true ↔
      ((∃ t, s.data = '+' :: '3' :: '8' :: '0' :: t ∧ t.length = 9 ∧ t.all Char.isDigit = true) ∨
       (∃ t, s.data = '0' :: t ∧ t.length = 9 ∧ t.all Char.isDigit = true))) ∧
    valid_phone "0501234567" = true ∧
    valid_phone "+380501234567" = true ∧
    valid_phone "050123456" = false ∧
    valid_phone "380501234567" = false ∧
    (∀ s : String, valid_phone s = false → order_phone s = Waypoint.waiting_for_phone) := by
  refine ⟨fun s => phone_match_iff s.data, by decide, by decide, by decide, by decide, ?_⟩
  intro s h
  simp [order_phone, h]

/-- Instance of valid_phone_spec at a concrete rejected input. -/
theorem valid_phone_spec_witness : order_phone "380501234567" = Waypoint.waiting_for_phone :=
  valid_phone_spec.2.2.2.2.2 "380501234567" (by decide)

/-- C7: a quantity input that is non-numeric or outside [1,10] performs no cart
mutation and leaves the session waypoint at waiting_for_quantity. -/
theorem invalid_quantity_no_mutation (db : DB) (uid pid : Nat) (inp : Option Int)
    (h : inp = none ∨ ∃ q, inp = some q ∧ (q < 1 ∨ 10 < q)) :
    add_to_cart_with_quantity db uid pid inp = (db, Waypoint.waiting_for_quantity) := by
  rcases h with rfl | ⟨q, rfl, hq⟩
  · rfl
  · have hv : (q < 1 || q > 10) = true := by
      rcases hq with hq | hq <;> simp [hq]
    simp [add_to_cart_with_quantity, hv]

/-- Instance of invalid_quantity_no_mutation at quantity 11. -/
theorem invalid_quantity_no_mutation_witness :
    add_to_cart_with_quantity db5 7 1 (some 11) = (db5, Waypoint.waiting_for_quantity) :=
  invalid_quantity_no_mutation db5 7 1 (some 11) (Or.inr ⟨11, rfl, by decide⟩)

/-- C9: deleting a city removes exactly the city row and that city's product rows;
cart, orders and terms are untouched, so cart lines referencing the deleted
products are left dangling. -/
theorem delete_city_effects (db : DB) (cid : Nat) :
    (∀ c : City, c ∈ (delete_city db cid).cities ↔ c ∈ db.cities ∧ c.id ≠ cid) ∧
    (∀ p : Product, p ∈ (delete_city db cid).products ↔ p ∈ db.products ∧ p.cityId ≠ cid) ∧
    (delete_city db cid).cart = db.cart ∧
    (delete_city db cid).orders = db.orders ∧
    (delete_city db cid).terms = db.terms := by
  refine ⟨?_, ?_, rfl, rfl, rfl⟩ <;> intro x <;>
    simp [delete_city, List.mem_filter]

/-- Instance of delete_city_effects: deleting city 1 of db5 keeps the cart line. -/
theorem delete_city_effects_witness : (delete_city db5 1).cart = db5.cart :=
  (delete_city_effects db5 1).2.2.1

/-- find?-by-id on a cons whose head has the id. -/
theorem find?_id_cons_pos (a : OrderRow) (l : List OrderRow) (oid : Nat)
    (h : (a.id == oid) = true) :
    (a :: l).find? (fun o => o.id == oid) = some a := by
  simp [List.find?, h]

/-- find?-by-id on a cons whose head does not have the id. -/
theorem find?_id_cons_neg (a : OrderRow) (l : List OrderRow) (oid : Nat)
    (h : (a.id == oid) = false) :
    (a :: l).find? (fun o => o.id == oid) = l.find? (fun o => o.id == oid) := by
  simp [List.find?, h]

/-- find? by id commutes with the status update map. -/
theorem find?_map_set_status (l : List OrderRow) (oid : Nat) (st : String) :
    (l.map (fun o => if o.id == oid then { o with status := st } else o)).find?
        (fun o => o.id == oid)
      = (l.find? (fun o => o.id == oid)).map (fun o => { o with status := st }) := by
  induction l with
  | nil => rfl
  | cons a t ih =>
    simp only [List.map_cons]
    by_cases h : (a.id == oid) = true
    · have h2 : ((({ a with status := st } : OrderRow)).id == oid) = true := h
      rw [if_pos h, find?_id_cons_pos _ _ _ h2, find?_id_cons_pos _ _ _ h]
      rfl
    · have hf : (a.id == oid) = false := by
        cases hb : (a.id == oid) with
        | true => exact absurd hb h
        | false => rfl
      have h2 : ((a : OrderRow).id == oid) = false := hf
      rw [if_neg h, find?_id_cons_neg _ _ _ h2, find?_id_cons_neg _ _ _ hf, ih]

/-- Setting a status twice is the same as setting it once. -/
theorem set_order_status_idem (db : DB) (oid : Nat) (st : String) :
    set_order_status (set_order_status db oid st) oid st = set_order_status db oid st := by
  have hff : ((fun o => if o.id == oid then { o with status := st } else o) ∘
      (fun o : OrderRow => if o.id == oid then { o with status := st } else o))
      = (fun o => if o.id == oid then { o with status := st } else o) := by
    funext o
    by_cases h : o.id = oid <;> simp [h]
  unfold set_order_status
  simp only [List.map_map, hff]

/-- The status update keeps the row (and its id) found by id. -/
theorem statusOf_set (db : DB) (oid : Nat) (st : String)
    (h : (db.orders.find? (fun o => o.id == oid)).isSome) :
    statusOf (set_order_status db oid st) oid = some st := by
  obtain ⟨o, ho⟩ := Option.isSome_iff_exists.mp h
  simp only [statusOf, set_order_status]
  rw [find?_map_set_status, ho]
  rfl

/-- Existence of the row by id survives the status update. -/
theorem find?_set_isSome (db : DB) (oid : Nat) (st : String) :
    ((set_order_status db oid st).orders.find? (fun o => o.id == oid)).isSome
      = (db.orders.find? (fun o => o.id == oid)).isSome := by
  simp only [set_order_status]
  rw [find?_map_set_status]
  cases db.orders.find? (fun o => o.id == oid) <;> rfl

/-- Accepting an order with an existing id twice is the same as doing it once. -/
theorem acceptOrder_idem (db : DB) (oid : Nat) :
    acceptOrder (acceptOrder db oid) oid = acceptOrder db oid := by
  unfold acceptOrder
  by_cases h : ((db.orders.find? (fun o => o.id == oid)).isSome = true)
  · rw [if_pos h]
    rw [if_pos ((find?_set_isSome db oid "accepted").trans h)]
    exact set_order_status_idem db oid "accepted"
  · rw [if_neg h, if_neg h]

/-- Rejecting an order with an existing id twice is the same as doing it once. -/
theorem rejectOrder_idem (db : DB) (oid : Nat) :
    rejectOrder (rejectOrder db oid) oid = rejectOrder db oid := by
  unfold rejectOrder
  by_cases h : ((db.orders.find? (fun o => o.id == oid)).isSome = true)
  · rw [if_pos h]
    rw [if_pos ((find?_set_isSome db oid "rejected").trans h)]
    exact set_order_status_idem db oid "rejected"
  · rw [if_neg h, if_neg h]

/-- C2 (amended): the accept/reject handlers set the status unconditionally for an
existing order id. Re-invoking the same action is idempotent, but the status is
not terminal: invoking the opposite action on an already accepted (or rejected)
order overwrites the status. -/
theorem order_status_overwrite (db : DB) (oid : Nat)
    (h : (db.orders.find? (fun o => o.id == oid)).isSome) :
    statusOf (acceptOrder db oid) oid = some "accepted" ∧
    statusOf (rejectOrder db oid) oid = some "rejected" ∧
    acceptOrder (acceptOrder db oid) oid = acceptOrder db oid ∧
    rejectOrder (rejectOrder db oid) oid = rejectOrder db oid ∧
    statusOf (rejectOrder (acceptOrder db oid) oid) oid = some "rejected" ∧
    statusOf (acceptOrder (rejectOrder db oid) oid) oid = some "accepted" := by
  have hsa : acceptOrder db oid = set_order_status db oid "accepted" := by
    unfold acceptOrder; rw [if_pos h]
  have hsr : rejectOrder db oid = set_order_status db oid "rejected" := by
    unfold rejectOrder; rw [if_pos h]
  have hacc : ((set_order_status db oid "accepted").orders.find?
      (fun o => o.id == oid)).isSome := (find?_set_isSome db oid "accepted").trans h
  have hrej : ((set_order_status db oid "rejected").orders.find?
      (fun o => o.id == oid)).isSome := (find?_set_isSome db oid "rejected").trans h
  refine ⟨?_, ?_, acceptOrder_idem db oid, rejectOrder_idem db oid, ?_, ?_⟩
  · rw [hsa]; exact statusOf_set db oid "accepted" h
  · rw [hsr]; exact statusOf_set db oid "rejected" h
  · rw [hsa]
    have : rejectOrder (set_order_status db oid "accepted") oid
        = set_order_status (set_order_status db oid "accepted") oid "rejected" := by
      unfold rejectOrder; rw [if_pos hacc]
    rw [this]
    exact statusOf_set _ oid "rejected" hacc
  · rw [hsr]
    have : acceptOrder (set_order_status db oid "rejected") oid
        = set_order_status (set_order_status db oid "rejected") oid "accepted" := by
      unfold acceptOrder; rw [if_pos hrej]
    rw [this]
    exact statusOf_set _ oid "accepted" hrej

/-- Instance of order_status_overwrite on the concrete store db2. -/
theorem order_status_overwrite_witness :
    statusOf (acceptOrder (rejectOrder db2 1) 1) 1 = some "accepted" :=
  (order_status_overwrite db2 1 (by decide)).2.2.2.2.2

/-- C2 counterexample: on db2, AcceptOrder sets order 1 to accepted, yet
re-invoking RejectOrder on the same order id changes the status to rejected —
the status is not terminal. -/
theorem order_status_counterexample :
    statusOf (acceptOrder db2 1) 1 = some "accepted" ∧
    statusOf (rejectOrder (acceptOrder db2 1) 1) 1 = some "rejected" ∧
    ("rejected" : String) ≠ "accepted" :=
  ⟨by decide, by decide, by decide⟩

/-- C6 counterexample: sender 999 is not in ADMIN_IDS, yet the add-city flow
handler mutates the cities table for it — the mutating handlers themselves never
consult the allow-list. -/
theorem admin_allowlist_counterexample :
    (999 : Nat) ∉ ADMIN_IDS ∧
    (route_add_city_text 999 emptyDB "Kyiv").cities ≠ emptyDB.cities :=
  ⟨by decide, by decide⟩

/-- C6 (amended): the static allow-list is consulted only by the /admin entry
point, which refuses a non-admin sender without touching the store; the admin
catalog handlers and the manager accept/reject handlers run identically for any
sender identity. -/
theorem admin_gate_only_at_panel (s : Nat) (db : DB) (hs : s ∉ ADMIN_IDS) :
    admin_panel s db = (db, false) ∧
    (∀ name, route_add_city_text s db name = add_city_finish db name) ∧
    (∀ cid, route_delete_city s db cid = delete_city db cid) ∧
    (∀ oid, route_order_accept s db oid = acceptOrder db oid) ∧
    (∀ oid, route_order_reject s db oid = rejectOrder db oid) ∧
    (∀ content, route_create_terms s db content = create_terms_finish db content) :=
  ⟨by simp [admin_panel, hs], fun _ => rfl, fun _ => rfl, fun _ => rfl,
   fun _ => rfl, fun _ => rfl⟩

/-- Instance of admin_gate_only_at_panel for sender 999. -/
theorem admin_gate_only_at_panel_witness : admin_panel 999 emptyDB = (emptyDB, false) :=
  (admin_gate_only_at_panel 999 emptyDB (by decide)).1

/-- C5: a valid AddToCart quantity q in [1,10] increments the quantity of an
existing (user, product) cart line by q — with no cap on the merged total — and
otherwise inserts a new line with quantity q; the quantity waypoint is then
cleared. -/
theorem quantity_merge (db : DB) (uid pid : Nat) (q : Int)
    (h1 : 1 ≤ q) (h2 : q ≤ 10) :
    ((∀ cl, db.cart.find? (fun c => c.userId == uid && c.productId == pid) = some cl →
        (add_to_cart_with_quantity db uid pid (some q)).1.cart
          = db.cart.map (fun c =>
              if c.id == cl.id then { c with quantity := c.quantity + q.toNat } else c)) ∧
     (db.cart.find? (fun c => c.userId == uid && c.productId == pid) = none →
        (add_to_cart_with_quantity db uid pid (some q)).1.cart
          = db.cart ++ [⟨db.nextCartId, uid, pid, q.toNat⟩])) ∧
    (add_to_cart_with_quantity db uid pid (some q)).2 = Waypoint.idle := by
  have hv : (q < 1 || q > 10) = false := by
    simp only [Bool.or_eq_false_iff, decide_eq_false_iff_not, not_lt]
    exact ⟨h1, h2⟩
  refine ⟨⟨?_, ?_⟩, ?_⟩
  · intro cl hcl
    simp only [add_to_cart_with_quantity, hv, Bool.false_eq_true, if_false,
      cart_insert_or_merge, hcl]
  · intro hnone
    simp only [add_to_cart_with_quantity, hv, Bool.false_eq_true, if_false,
      cart_insert_or_merge, hnone]
  · simp only [add_to_cart_with_quantity, hv, Bool.false_eq_true, if_false]

/-- Instance of quantity_merge on db5: adding 2 more of product 1 for user 7 merges
into the existing line of quantity 3, giving quantity 5 in a single line. -/
theorem quantity_merge_witness :
    (add_to_cart_with_quantity db5 7 1 (some 2)).1.cart = [⟨1, 7, 1, 5⟩] := by
  have h := (quantity_merge db5 7 1 2 (by decide) (by decide)).1.1 ⟨1, 7, 1, 3⟩ (by decide)
  rw [h]
  decide

/-- The orders list after one order insert. -/
theorem insertRow_orders (uid : Nat) (ph ar cm : String) (pid : Nat) (db : DB) :
    (insertOrderRow uid ph ar cm pid db).orders
      = db.orders ++ [⟨db.nextOrderId, uid, pid, ph, ar, cm, "pending"⟩] := rfl

/-- The cart after one order insert. -/
theorem insertRow_cart (uid : Nat) (ph ar cm : String) (pid : Nat) (db : DB) :
    (insertOrderRow uid ph ar cm pid db).cart = db.cart := rfl

/-- Effect of the per-unit insert loop of one snapshot item: the quantity is
added to the order count, the cart is untouched, and every row is either an old
row or a fresh pending row with the collected fields and this product id. -/
theorem insertUnits_spec (uid : Nat) (ph ar cm : String) (pid : Nat) :
    ∀ (n : Nat) (db : DB),
      (((List.range n).foldl (fun d _ => insertOrderRow uid ph ar cm pid d) db).orders.length
          = db.orders.length + n) ∧
      (((List.range n).foldl (fun d _ => insertOrderRow uid ph ar cm pid d) db).cart
          = db.cart) ∧
      (∀ o ∈ ((List.range n).foldl (fun d _ => insertOrderRow uid ph ar cm pid d) db).orders,
        o ∈ db.orders ∨
          (o.userId = uid ∧ o.status = "pending" ∧ o.phone = ph ∧ o.area = ar ∧
           o.comment = cm ∧ o.productId = pid)) := by
  intro n
  induction n with
  | zero => intro db; exact ⟨rfl, rfl, fun o ho => Or.inl ho⟩
  | succ n ih =>
    intro db
    rw [List.range_succ, List.foldl_append]
    obtain ⟨ihl, ihc, ihm⟩ := ih db
    refine ⟨?_, ?_, ?_⟩
    · simp only [List.foldl_cons, List.foldl_nil, insertRow_orders, List.length_append,
        List.length_singleton, ihl]
      omega
    · simp only [List.foldl_cons, List.foldl_nil, insertRow_cart]
      exact ihc
    · intro o ho
      simp only [List.foldl_cons, List.foldl_nil, insertRow_orders, List.mem_append,
        List.mem_singleton] at ho
      rcases ho with ho | rfl
      · exact ihm o ho
      · exact Or.inr ⟨rfl, rfl, rfl, rfl, rfl, rfl⟩

/-- Effect of the whole snapshot insert loop of order_comment's cart branch. -/
theorem insertSnap_spec (uid : Nat) (ph ar cm : String) :
    ∀ (snap : List CartItem) (db : DB),
      ((snap.foldl (fun d it => insertItemOrders uid ph ar cm it d) db).orders.length
          = db.orders.length + (snap.map CartItem.quantity).sum) ∧
      ((snap.foldl (fun d it => insertItemOrders uid ph ar cm it d) db).cart = db.cart) ∧
      (∀ o ∈ (snap.foldl (fun d it => insertItemOrders uid ph ar cm it d) db).orders,
        o ∈ db.orders ∨
          (o.userId = uid ∧ o.status = "pending" ∧ o.phone = ph ∧ o.area = ar ∧
           o.comment = cm ∧ ∃ it ∈ snap, o.productId = it.productId)) := by
  intro snap
  induction snap with
  | nil => intro db; exact ⟨rfl, rfl, fun o ho => Or.inl ho⟩
  | cons it rest ih =>
    intro db
    simp only [List.foldl_cons, List.map_cons, List.sum_cons]
    obtain ⟨al, ac, am⟩ := insertUnits_spec uid ph ar cm it.productId it.quantity db
    obtain ⟨bl, bc, bm⟩ := ih (insertItemOrders uid ph ar cm it db)
    refine ⟨?_, ?_, ?_⟩
    · rw [bl,
        show (insertItemOrders uid ph ar cm it db).orders.length
          = db.orders.length + it.quantity from al]
      omega
    · rw [bc]
      exact (show (insertItemOrders uid ph ar cm it db).cart = db.cart from ac)
    · intro o ho
      rcases bm o ho with hmem | ⟨h1, h2, h3, h4, h5, it2, hit2, h6⟩
      · rcases (show ∀ o ∈ (insertItemOrders uid ph ar cm it db).orders,
            o ∈ db.orders ∨ (o.userId = uid ∧ o.status = "pending" ∧ o.phone = ph ∧
              o.area = ar ∧ o.comment = cm ∧ o.productId = it.productId) from am)
            o hmem with h | ⟨h1, h2, h3, h4, h5, h6⟩
        · exact Or.inl h
        · exact Or.inr ⟨h1, h2, h3, h4, h5, it, List.mem_cons_self it rest, h6⟩
      · exact Or.inr ⟨h1, h2, h3, h4, h5, it2, List.mem_cons_of_mem it hit2, h6⟩

/-- C3: finalizing a non-empty cart snapshot inserts exactly the sum of the
snapshot's quantities as order rows — every new row pending, carrying the
collected phone, area and comment and one of the snapshot's product ids — and
afterwards the user has zero remaining cart lines. -/
theorem finalize_cart_order_spec (db : DB) (uid : Nat) (snap : List CartItem)
    (phone area comment : String) (hne : snap ≠ []) :
    (finalize_cart_order db uid snap phone area comment).orders.length
        = db.orders.length + (snap.map CartItem.quantity).sum ∧
    (∀ o ∈ (finalize_cart_order db uid snap phone area comment).orders,
      o ∈ db.orders ∨
        (o.userId = uid ∧ o.status = "pending" ∧ o.phone = phone ∧ o.area = area ∧
         o.comment = comment ∧ ∃ it ∈ snap, o.productId = it.productId)) ∧
    (finalize_cart_order db uid snap phone area comment).cart.filter
        (fun cl => cl.userId == uid) = [] := by
  obtain ⟨hl, hc, hm⟩ := insertSnap_spec uid phone area comment snap db
  refine ⟨?_, ?_, ?_⟩
  · simpa only [finalize_cart_order, clear_cart] using hl
  · intro o ho
    exact hm o (by simpa only [finalize_cart_order, clear_cart] using ho)
  · simp only [finalize_cart_order, clear_cart]
    rw [List.filter_eq_nil_iff]
    intro a ha
    have h2 := (List.mem_filter.mp ha).2
    simp only [Bool.not_eq_true'] at h2
    simp [h2]

/-- Instance of finalize_cart_order_spec: one snapshot line of quantity 3 yields
exactly three order rows and an empty cart for the user. -/
theorem finalize_cart_order_spec_witness :
    (finalize_cart_order emptyDB 7 [⟨1, 3, "Rose", 100, "Lviv"⟩]
        "0501234567" "Center" "-").orders.length
      = emptyDB.orders.length + ([⟨1, 3, "Rose", 100, "Lviv"⟩].map CartItem.quantity).sum :=
  (finalize_cart_order_spec emptyDB 7 [⟨1, 3, "Rose", 100, "Lviv"⟩]
    "0501234567" "Center" "-" (by decide)).1

/-- A single order insert ignores and preserves the cart table. -/
theorem insertRow_cart_swap (uid : Nat) (ph ar cm : String) (pid : Nat) (db : DB)
    (c : List CartLine) :
    insertOrderRow uid ph ar cm pid { db with cart := c }
      = { insertOrderRow uid ph ar cm pid db with cart := c } := rfl

/-- The per-unit insert loop ignores the cart table. -/
theorem insertUnits_cart_swap (uid : Nat) (ph ar cm : String) (pid : Nat) :
    ∀ (l : List Nat) (db : DB) (c : List CartLine),
      l.foldl (fun d _ => insertOrderRow uid ph ar cm pid d) { db with cart := c }
        = { l.foldl (fun d _ => insertOrderRow uid ph ar cm pid d) db with cart := c } := by
  intro l
  induction l with
  | nil => intro db c; rfl
  | cons a t ih =>
    intro db c
    simp only [List.foldl_cons]
    rw [insertRow_cart_swap]
    exact ih (insertOrderRow uid ph ar cm pid db) c

/-- The snapshot insert loop ignores the cart table. -/
theorem insertSnap_cart_swap (uid : Nat) (ph ar cm : String) :
    ∀ (snap : List CartItem) (db : DB) (c : List CartLine),
      snap.foldl (fun d it => insertItemOrders uid ph ar cm it d) { db with cart := c }
        = { snap.foldl (fun d it => insertItemOrders uid ph ar cm it d) db with cart := c } := by
  intro snap
  induction snap with
  | nil => intro db c; rfl
  | cons it rest ih =>
    intro db c
    simp only [List.foldl_cons]
    rw [show insertItemOrders uid ph ar cm it { db with cart := c }
        = { insertItemOrders uid ph ar cm it db with cart := c } from
      insertUnits_cart_swap uid ph ar cm it.productId (List.range it.quantity) db c]
    exact ih (insertItemOrders uid ph ar cm it db) c

/-- C4: the total rendered to the manager is computed from the cart_items snapshot
taken when cart_checkout ran, and the order rows created at finalize are the same
for any cart-table state at finalize time — modifications of the cart table
between checkout start and finalize affect neither. -/
theorem checkout_total_from_snapshot (db : DB) (uid : Nat) (cartMods : List CartLine)
    (phone area comment : String) (hne : cart_snapshot db uid ≠ []) :
    (order_comment_cart { db with cart := cartMods } uid (cart_snapshot db uid)
        phone area comment).2
      = ((cart_snapshot db uid).map (fun it => it.price * (it.quantity : Int))).sum ∧
    (order_comment_cart { db with cart := cartMods } uid (cart_snapshot db uid)
        phone area comment).1.orders
      = (order_comment_cart db uid (cart_snapshot db uid) phone area comment).1.orders := by
  refine ⟨rfl, ?_⟩
  show (finalize_cart_order { db with cart := cartMods } uid (cart_snapshot db uid)
      phone area comment).orders
    = (finalize_cart_order db uid (cart_snapshot db uid) phone area comment).orders
  simp only [finalize_cart_order, clear_cart]
  rw [insertSnap_cart_swap]

/-- Instance of checkout_total_from_snapshot: on db5 the snapshot total survives
clearing the underlying cart table before finalize. -/
theorem checkout_total_from_snapshot_witness :
    (order_comment_cart { db5 with cart := [] } 7 (cart_snapshot db5 7)
        "0501234567" "Center" "-").2
      = ((cart_snapshot db5 7).map (fun it => it.price * (it.quantity : Int))).sum :=
  (checkout_total_from_snapshot db5 7 [] "0501234567" "Center" "-" (by decide)).1

/-- A found city row has the looked-up id and is a table row. -/
theorem findCity_id {db : DB} {k : Nat} {c : City} (h : findCity db k = some c) :
    c.id = k ∧ c ∈ db.cities := by
  unfold findCity at h
  exact ⟨by simpa using List.find?_some h, List.mem_of_find?_eq_some h⟩

/-- A found product row has the looked-up id and is a table row. -/
theorem findProduct_mem {db : DB} {k : Nat} {p : Product} (h : findProduct db k = some p) :
    p.id = k ∧ p ∈ db.products := by
  unfold findProduct at h
  exact ⟨by simpa using List.find?_some h, List.mem_of_find?_eq_some h⟩

/-- Lookups ignore the cart table. -/
theorem findProduct_cart (db : DB) (x : List CartLine) (pid : Nat) :
    findProduct { db with cart := x } pid = findProduct db pid := rfl

/-- Lookups ignore the cart table and the cart counter. -/
theorem findProduct_cart2 (db : DB) (x : List CartLine) (m : Nat) (pid : Nat) :
    findProduct { db with cart := x, nextCartId := m } pid = findProduct db pid := rfl

/-- A nonempty-producing element makes the head of a filterMap defined. -/
theorem head?_filterMap_isSome {α β : Type} (f : α → Option β) (l : List α) (a : α)
    (ha : a ∈ l) (hfa : (f a).isSome) : ((l.filterMap f).head?).isSome := by
  cases hL : l.filterMap f with
  | nil =>
    rw [List.filterMap_eq_nil_iff.mp hL a ha] at hfa
    simp at hfa
  | cons b t => rfl

/-- The head of a filterMap comes from some element of the list. -/
theorem head?_filterMap_mem {α β : Type} (f : α → Option β) (l : List α) (b : β)
    (h : (l.filterMap f).head? = some b) : ∃ a ∈ l, f a = some b := by
  cases hL : l.filterMap f with
  | nil => rw [hL] at h; simp at h
  | cons x t =>
    rw [hL] at h
    simp only [List.head?_cons, Option.some.injEq] at h
    subst h
    exact List.mem_filterMap.mp (hL ▸ List.mem_cons_self x t)

/-- Unpacking a successful product_city_name lookup. -/
theorem product_city_name_some {db : DB} {pid : Nat} {nm : String}
    (h : product_city_name db pid = some nm) :
    ∃ p, findProduct db pid = some p ∧ ∃ c, findCity db p.cityId = some c ∧ c.name = nm := by
  unfold product_city_name at h
  cases hp : findProduct db pid with
  | none => rw [hp] at h; simp at h
  | some p =>
    rw [hp] at h
    simp only at h
    cases hc : findCity db p.cityId with
    | none => rw [hc] at h; simp at h
    | some c =>
      rw [hc] at h
      simp at h
      exact ⟨p, rfl, c, hc, h⟩

/-- Unpacking a successful get_user_cart_city: some cart line of the user joins
to a product and a city carrying the returned id and name. -/
theorem get_user_cart_city_some {db : DB} {uid cid : Nat} {cname : String}
    (h : get_user_cart_city db uid = some (cid, cname)) :
    ∃ cl ∈ db.cart, (cl.userId == uid) = true ∧
      ∃ p, findProduct db cl.productId = some p ∧
        ∃ c, findCity db p.cityId = some c ∧ c.id = cid ∧ c.name = cname := by
  unfold get_user_cart_city at h
  obtain ⟨cl, hcl, hf⟩ := head?_filterMap_mem _ _ _ h
  refine ⟨cl, hcl, ?_⟩
  by_cases hu : (cl.userId == uid) = true
  · rw [if_pos hu] at hf
    refine ⟨hu, ?_⟩
    cases hp : findProduct db cl.productId with
    | none => rw [hp] at hf; simp at hf
    | some p =>
      rw [hp] at hf
      simp only at hf
      cases hc : findCity db p.cityId with
      | none => rw [hc] at hf; simp at hf
      | some c =>
        rw [hc] at hf
        simp at hf
        exact ⟨p, rfl, c, hc, hf.1, hf.2⟩
  · rw [if_neg hu] at hf
    simp at hf

/-- A cart line of the user that joins through to a city forces
get_user_cart_city to be defined. -/
theorem get_user_cart_city_isSome {db : DB} {uid : Nat} {cl : CartLine}
    (hcl : cl ∈ db.cart) (huid : (cl.userId == uid) = true)
    {p : Product} (hp : findProduct db cl.productId = some p)
    {c : City} (hc : findCity db p.cityId = some c) :
    (get_user_cart_city db uid).isSome := by
  unfold get_user_cart_city
  refine head?_filterMap_isSome _ _ cl hcl ?_
  simp only [huid, if_true, hp, hc]
  rfl

/-- A successful conflict check means the product exists. -/
theorem add_to_cart_some_product {db : DB} {uid pid : Nat} {x : Nat × String}
    (hA : add_to_cart db uid pid = some x) :
    ∃ p, findProduct db pid = some p := by
  unfold add_to_cart at hA
  cases hG : get_user_cart_city db uid with
  | none =>
    rw [hG] at hA
    simp only at hA
    cases hp : findProduct db pid with
    | none => rw [hp] at hA; simp at hA
    | some p => exact ⟨p, rfl⟩
  | some pr =>
    rw [hG] at hA
    simp only at hA
    cases hpc : product_city_name db pid with
    | none => rw [hpc] at hA; simp at hA
    | some nm =>
      obtain ⟨p, hp, _⟩ := product_city_name_some hpc
      exact ⟨p, hp⟩

/-- The merge map of the quantity step keeps userId. -/
theorem merge_userId (cid0 q : Nat) (c : CartLine) :
    (if c.id == cid0 then { c with quantity := c.quantity + q } else c).userId
      = c.userId := by
  by_cases h : (c.id == cid0) = true
  · simp only [if_pos h]
  · simp only [if_neg h]

/-- The merge map of the quantity step keeps productId. -/
theorem merge_productId (cid0 q : Nat) (c : CartLine) :
    (if c.id == cid0 then { c with quantity := c.quantity + q } else c).productId
      = c.productId := by
  by_cases h : (c.id == cid0) = true
  · simp only [if_pos h]
  · simp only [if_neg h]

/-- After a successful conflict check, the insert-or-merge of the quantity step
preserves the single-city invariant. -/
theorem cart_insert_or_merge_CartInv (db : DB) (uid pid q : Nat)
    (hwf : WF db) (hinv : CartInv db uid) (payload : Nat × String)
    (hA : add_to_cart db uid pid = some payload) :
    CartInv (cart_insert_or_merge db uid pid q) uid := by
  obtain ⟨pNew, hpNew⟩ := add_to_cart_some_product hA
  have hsame : ∀ cl ∈ db.cart, cl.userId = uid →
      (findProduct db cl.productId).map (fun p => p.cityId) = some pNew.cityId := by
    intro cl hcl hclu
    have hps : (findProduct db cl.productId).isSome := hinv.1 cl hcl hclu
    obtain ⟨pOld, hpOld⟩ := Option.isSome_iff_exists.mp hps
    obtain ⟨cOld, hcOldMem, hcOldId⟩ := hwf.2.2 pOld (findProduct_mem hpOld).2
    have hcOldFind : (findCity db pOld.cityId).isSome := by
      unfold findCity
      exact List.find?_isSome.mpr ⟨cOld, hcOldMem, by simp [hcOldId]⟩
    obtain ⟨c1, hc1⟩ := Option.isSome_iff_exists.mp hcOldFind
    have hG : (get_user_cart_city db uid).isSome :=
      get_user_cart_city_isSome hcl (by simp [hclu]) hpOld hc1
    obtain ⟨pr, hpr⟩ := Option.isSome_iff_exists.mp hG
    obtain ⟨cid, cname⟩ := pr
    unfold add_to_cart at hA
    rw [hpr] at hA
    simp only at hA
    cases hpc : product_city_name db pid with
    | none => rw [hpc] at hA; simp at hA
    | some pcname =>
      rw [hpc] at hA
      simp only at hA
      by_cases hbe : (cname == pcname) = true
      · have hnm : cname = pcname := by simpa using hbe
        obtain ⟨cl0, hcl0, hcl0u, p0, hp0, c0, hc0, hc0id, hc0nm⟩ :=
          get_user_cart_city_some hpr
        obtain ⟨p2, hp2, cN, hcN, hcNnm⟩ := product_city_name_some hpc
        have hp2eq : p2 = pNew := by
          rw [hpNew] at hp2
          exact (Option.some.inj hp2).symm
        have hcNid := (findCity_id hcN).1
        rw [hp2eq] at hcNid
        have hcNmem := (findCity_id hcN).2
        have hc0mem := (findCity_id hc0).2
        have hc0idk := (findCity_id hc0).1
        have hceq : c0 = cN :=
          List.inj_on_of_nodup_map hwf.2.1 hc0mem hcNmem (by rw [hc0nm, hcNnm, hnm])
        have hline := hinv.2 cl hcl cl0 hcl0 hclu (by simpa using hcl0u)
        rw [hp0] at hline
        rw [hline]
        have hcity : p0.cityId = pNew.cityId := by rw [← hc0idk, hceq, hcNid]
        simp [hcity]
      · rw [if_neg hbe] at hA
        simp at hA
  unfold cart_insert_or_merge
  cases hF : db.cart.find? (fun cl => cl.userId == uid && cl.productId == pid) with
  | some cl0 =>
    constructor
    · intro cl2 hcl2 hu2
      obtain ⟨cl1, hcl1, he1⟩ := List.mem_map.mp hcl2
      have hu1 : cl1.userId = uid := by
        rw [← he1, merge_userId] at hu2
        exact hu2
      have hpid : cl2.productId = cl1.productId := by
        rw [← he1, merge_productId]
      show (findProduct db cl2.productId).isSome
      rw [hpid]
      exact hinv.1 cl1 hcl1 hu1
    · intro cl2 hcl2 cl3 hcl3 hu2 hu3
      obtain ⟨c2, hc2, he2⟩ := List.mem_map.mp hcl2
      obtain ⟨c3, hc3, he3⟩ := List.mem_map.mp hcl3
      have hu2a : c2.userId = uid := by
        rw [← he2, merge_userId] at hu2
        exact hu2
      have hu3a : c3.userId = uid := by
        rw [← he3, merge_userId] at hu3
        exact hu3
      have hp2a : cl2.productId = c2.productId := by
        rw [← he2, merge_productId]
      have hp3a : cl3.productId = c3.productId := by
        rw [← he3, merge_productId]
      show Option.map (fun p => p.cityId) (findProduct db cl2.productId)
          = Option.map (fun p => p.cityId) (findProduct db cl3.productId)
      rw [hp2a, hp3a]
      exact hinv.2 c2 hc2 c3 hc3 hu2a hu3a
  | none =>
    constructor
    · intro cl2 hcl2 hu2
      show (findProduct db cl2.productId).isSome
      rcases List.mem_append.mp hcl2 with h | h
      · exact hinv.1 cl2 h hu2
      · rw [List.mem_singleton] at h
        subst h
        show (findProduct db pid).isSome
        rw [hpNew]
        rfl
    · intro cl2 hcl2 cl3 hcl3 hu2 hu3
      show Option.map (fun p => p.cityId) (findProduct db cl2.productId)
          = Option.map (fun p => p.cityId) (findProduct db cl3.productId)
      rcases List.mem_append.mp hcl2 with h2 | h2 <;>
        rcases List.mem_append.mp hcl3 with h3 | h3
      · exact hinv.2 cl2 h2 cl3 h3 hu2 hu3
      · rw [List.mem_singleton] at h3
        subst h3
        show Option.map (fun p => p.cityId) (findProduct db cl2.productId)
            = Option.map (fun p => p.cityId) (findProduct db pid)
        rw [hpNew]
        exact hsame cl2 h2 hu2
      · rw [List.mem_singleton] at h2
        subst h2
        show Option.map (fun p => p.cityId) (findProduct db pid)
            = Option.map (fun p => p.cityId) (findProduct db cl3.productId)
        rw [hpNew]
        exact (hsame cl3 h3 hu3).symm
      · rw [List.mem_singleton] at h2
        rw [List.mem_singleton] at h3
        subst h2
        subst h3
        rfl

/-- The insert-or-merge touches only the cart table. -/
theorem cart_insert_or_merge_products (db : DB) (uid pid q : Nat) :
    (cart_insert_or_merge db uid pid q).products = db.products := by
  unfold cart_insert_or_merge
  cases db.cart.find? (fun cl => cl.userId == uid && cl.productId == pid) <;> rfl

/-- The insert-or-merge touches only the cart table. -/
theorem cart_insert_or_merge_cities (db : DB) (uid pid q : Nat) :
    (cart_insert_or_merge db uid pid q).cities = db.cities := by
  unfold cart_insert_or_merge
  cases db.cart.find? (fun cl => cl.userId == uid && cl.productId == pid) <;> rfl

/-- A whole AddToCart interaction leaves the products table unchanged. -/
theorem AddToCart_products (db : DB) (uid pid : Nat) (inp : Option Int) :
    (AddToCart db uid pid inp).products = db.products := by
  unfold AddToCart add_to_cart_with_quantity
  split
  · rfl
  · split
    · rfl
    · split
      · rfl
      · exact cart_insert_or_merge_products db uid pid _

/-- A whole AddToCart interaction leaves the cities table unchanged. -/
theorem AddToCart_cities (db : DB) (uid pid : Nat) (inp : Option Int) :
    (AddToCart db uid pid inp).cities = db.cities := by
  unfold AddToCart add_to_cart_with_quantity
  split
  · rfl
  · split
    · rfl
    · split
      · rfl
      · exact cart_insert_or_merge_cities db uid pid _

/-- Schema well-formedness only looks at cities and products. -/
theorem WF_of_fields {dbA dbB : DB} (hc : dbB.cities = dbA.cities)
    (hp : dbB.products = dbA.products) (h : WF dbA) : WF dbB := by
  unfold WF at h ⊢
  rw [hc, hp]
  exact h

/-- One AddToCart interaction preserves the single-city cart invariant. -/
theorem AddToCart_CartInv (db : DB) (uid pid : Nat) (inp : Option Int)
    (hwf : WF db) (hinv : CartInv db uid) :
    CartInv (AddToCart db uid pid inp) uid := by
  unfold AddToCart
  cases hA : add_to_cart db uid pid with
  | none => exact hinv
  | some payload =>
    cases inp with
    | none => exact hinv
    | some q =>
      show CartInv ((if q < 1 || q > 10 then (db, Waypoint.waiting_for_quantity)
        else (cart_insert_or_merge db uid pid q.toNat, Waypoint.idle)).1) uid
      by_cases hq : (q < 1 || q > 10) = true
      · rw [if_pos hq]
        exact hinv
      · rw [if_neg hq]
        exact cart_insert_or_merge_CartInv db uid pid q.toNat hwf hinv payload hA

/-- The invariant (and well-formedness) hold after any AddToCart sequence. -/
theorem applyAdds_inv (uid : Nat) :
    ∀ (ops : List (Nat × Option Int)) (db : DB), WF db → CartInv db uid →
      WF (applyAdds db uid ops) ∧ CartInv (applyAdds db uid ops) uid := by
  intro ops
  induction ops with
  | nil =>
    intro db hwf hinv
    exact ⟨hwf, hinv⟩
  | cons op rest ih =>
    intro db hwf hinv
    have hwf2 : WF (AddToCart db uid op.1 op.2) :=
      WF_of_fields (AddToCart_cities db uid op.1 op.2)
        (AddToCart_products db uid op.1 op.2) hwf
    have hinv2 := AddToCart_CartInv db uid op.1 op.2 hwf hinv
    simpa only [applyAdds, List.foldl_cons] using
      ih (AddToCart db uid op.1 op.2) hwf2 hinv2

/-- The invariant bounds the number of distinct cities in the user's cart by one. -/
theorem CartInv_cartCityIds {db : DB} {uid : Nat} (hinv : CartInv db uid) :
    (cartCityIds db uid).length ≤ 1 := by
  unfold cartCityIds
  apply dedup_length_le_one
  intro a ha b hb
  obtain ⟨cla, hcla, hfa⟩ := List.mem_filterMap.mp ha
  obtain ⟨clb, hclb, hfb⟩ := List.mem_filterMap.mp hb
  have hma := List.mem_filter.mp hcla
  have hmb := List.mem_filter.mp hclb
  have hua : cla.userId = uid := by simpa using hma.2
  have hub : clb.userId = uid := by simpa using hmb.2
  have heq := hinv.2 cla hma.1 clb hmb.1 hua hub
  rw [hfa, hfb] at heq
  exact Option.some.inj heq

/-- A user with no cart lines satisfies the invariant vacuously. -/
theorem CartInv_of_empty {db : DB} {uid : Nat}
    (h0 : ∀ cl ∈ db.cart, cl.userId ≠ uid) : CartInv db uid :=
  ⟨fun cl hcl hu => absurd hu (h0 cl hcl),
   fun cl1 hcl1 _ _ hu1 _ => absurd hu1 (h0 cl1 hcl1)⟩

/-- A city-name conflict aborts the AddToCart interaction with no store change. -/
theorem add_to_cart_conflict_abort (d : DB) (uid pid : Nat) (inp : Option Int)
    (cid : Nat) (cname pcname : String)
    (hG : get_user_cart_city d uid = some (cid, cname))
    (hP : product_city_name d pid = some pcname) (hne : cname ≠ pcname) :
    AddToCart d uid pid inp = d := by
  have hbe : (cname == pcname) = false := by simp [hne]
  have hA : add_to_cart d uid pid = none := by
    unfold add_to_cart
    rw [hG]
    simp [hP, hbe]
  unfold AddToCart
  rw [hA]

/-- C1: starting from a well-formed catalog and an empty cart for the user, after
any sequence of AddToCart interactions the set of distinct cities among the
user's cart lines has size at most one; and an add whose product belongs to a
city with a different name than the existing non-empty cart is aborted with no
cart mutation. -/
theorem single_city_cart_invariant (db : DB) (uid : Nat) (hwf : WF db)
    (h0 : ∀ cl ∈ db.cart, cl.userId ≠ uid) (ops : List (Nat × Option Int)) :
    (cartCityIds (applyAdds db uid ops) uid).length ≤ 1 ∧
    (∀ (d : DB) (pid : Nat) (inp : Option Int) (cid : Nat) (cname pcname : String),
      get_user_cart_city d uid = some (cid, cname) →
      product_city_name d pid = some pcname → cname ≠ pcname →
      AddToCart d uid pid inp = d) := by
  constructor
  · exact CartInv_cartCityIds (applyAdds_inv uid ops db hwf (CartInv_of_empty h0)).2
  · intro d pid inp cid cname pcname hG hP hne
    exact add_to_cart_conflict_abort d uid pid inp cid cname pcname hG hP hne

/-- Instance of single_city_cart_invariant: user 7 adds both db1 products. -/
theorem single_city_cart_invariant_witness :
    (cartCityIds (applyAdds db1 7 [(1, some 3), (2, some 2)]) 7).length ≤ 1 :=
  (single_city_cart_invariant db1 7 (by decide) (by decide)
    [(1, some 3), (2, some 2)]).1

/-- The word-wrap loop only appends draw ops. -/
theorem wrapFold_ops_extend (ws : List String) :
    ∀ (st : PdfState) (cur : String),
      ∃ t, ((ws.foldl wrapStep (st, cur)).1).ops = st.ops ++ t := by
  induction ws with
  | nil =>
    intro st cur
    exact ⟨[], by simp⟩
  | cons w ws ih =>
    intro st cur
    simp only [List.foldl_cons]
    by_cases h : ((cur ++ w).length < 70)
    · have hstep : wrapStep (st, cur) w = (st, cur ++ w ++ " ") := by
        unfold wrapStep
        rw [if_pos h]
      rw [hstep]
      exact ih st (cur ++ w ++ " ")
    · have hstep : wrapStep (st, cur) w
          = ({ st with ops := st.ops ++ [⟨st.page, 100, st.y, cur.trim⟩], y := st.y - 20 },
             w ++ " ") := by
        unfold wrapStep
        rw [if_neg h]
      rw [hstep]
      obtain ⟨t, ht⟩ := ih
        { st with ops := st.ops ++ [⟨st.page, 100, st.y, cur.trim⟩], y := st.y - 20 }
        (w ++ " ")
      refine ⟨⟨st.page, 100, st.y, cur.trim⟩ :: t, ?_⟩
      rw [ht]
      simp

/-- The per-line loop only appends draw ops. -/
theorem renderLine_ops_extend (st0 : PdfState) (line : String) :
    ∃ t, (renderLine st0 line).ops = st0.ops ++ t := by
  unfold renderLine
  simp only []
  generalize hZ : (if st0.y < 50 then { st0 with page := st0.page + 1, y := 750 } else st0)
    = st1
  have hops : st1.ops = st0.ops := by
    rw [← hZ]
    by_cases h : st0.y < 50
    · rw [if_pos h]
    · rw [if_neg h]
  by_cases hl : line.length > 70
  · rw [if_pos hl]
    set r := (line.splitOn " ").foldl wrapStep (st1, "") with hrdef
    obtain ⟨t, ht⟩ := wrapFold_ops_extend (line.splitOn " ") st1 ""
    rw [← hrdef] at ht
    by_cases hc : r.2 ≠ ""
    · rw [if_pos hc]
      refine ⟨t ++ [⟨r.1.page, 100, r.1.y, r.2.trim⟩], ?_⟩
      show r.1.ops ++ [⟨r.1.page, 100, r.1.y, r.2.trim⟩]
          = st0.ops ++ (t ++ [⟨r.1.page, 100, r.1.y, r.2.trim⟩])
      rw [ht, hops, List.append_assoc]
    · rw [if_neg hc]
      exact ⟨t, by rw [ht, hops]⟩
  · rw [if_neg hl]
    refine ⟨[⟨st1.page, 100, st1.y, line⟩], ?_⟩
    show st1.ops ++ [⟨st1.page, 100, st1.y, line⟩]
        = st0.ops ++ [⟨st1.page, 100, st1.y, line⟩]
    rw [hops]

/-- The whole content loop only appends draw ops. -/
theorem renderFold_ops_extend (lines : List String) :
    ∀ st : PdfState, ∃ t, ((lines.foldl renderLine st).ops) = st.ops ++ t := by
  induction lines with
  | nil =>
    intro st
    exact ⟨[], by simp⟩
  | cons l ls ih =>
    intro st
    simp only [List.foldl_cons]
    obtain ⟨t1, ht1⟩ := renderLine_ops_extend st l
    obtain ⟨t2, ht2⟩ := ih (renderLine st l)
    exact ⟨t1 ++ t2, by rw [ht2, ht1, List.append_assoc]⟩

/-- Left cancellation of string append. -/
theorem string_append_cancel {s t u : String} (h : s ++ t = s ++ u) : t = u := by
  have h2 : (s ++ t).data = (s ++ u).data := by rw [h]
  rw [String.data_append, String.data_append] at h2
  exact String.ext (List.append_cancel_left h2)

/-- The rendered document determines the creation date: the second draw op is the
date line. -/
theorem create_terms_pdf_date_det (c d1 d2 : String)
    (h : create_terms_pdf c d1 = create_terms_pdf c d2) : d1 = d2 := by
  unfold create_terms_pdf at h
  obtain ⟨t1, ht1⟩ := renderFold_ops_extend (c.splitOn "\n")
    { page := 0, y := 680,
      ops := [⟨0, 100, 750, "УМОВИ ВИКОРИСТАННЯ МАГАЗИНУ"⟩,
              ⟨0, 100, 720, "Дата створення: " ++ d1⟩] }
  obtain ⟨t2, ht2⟩ := renderFold_ops_extend (c.splitOn "\n")
    { page := 0, y := 680,
      ops := [⟨0, 100, 750, "УМОВИ ВИКОРИСТАННЯ МАГАЗИНУ"⟩,
              ⟨0, 100, 720, "Дата створення: " ++ d2⟩] }
  rw [ht1, ht2] at h
  simp only [List.cons_append, List.nil_append, List.cons.injEq, PdfOp.mk.injEq] at h
  exact string_append_cancel h.2.1.2.2.2

/-- C10 (amended): document generation is a pure function of the pair (content,
creation date read from the clock): two renders of the same content are
byte-identical exactly when the dates coincide, so two invocations on different
dates return different documents. -/
theorem create_terms_pdf_date_dependence (c d1 d2 : String) :
    create_terms_pdf c d1 = create_terms_pdf c d2 ↔ d1 = d2 :=
  ⟨create_terms_pdf_date_det c d1 d2, fun h => by rw [h]⟩

/-- Instance of create_terms_pdf_date_dependence at one concrete date. -/
theorem create_terms_pdf_date_dependence_witness :
    create_terms_pdf "a" "05.10.2025" = create_terms_pdf "a" "05.10.2025" :=
  (create_terms_pdf_date_dependence "a" "05.10.2025" "05.10.2025").mpr rfl

/-- C10 counterexample: the same content rendered under two different clock dates
yields different documents — create_terms_pdf is not a pure function of the
content alone. -/
theorem create_terms_pdf_counterexample :
    create_terms_pdf "terms text" "01.01.2024" ≠ create_terms_pdf "terms text" "02.01.2024" := by
  intro h
  have hd := create_terms_pdf_date_det "terms text" "01.01.2024" "02.01.2024" h
  exact absurd hd (by decide)
